import Mathlib

/-
Shallow embedding of the two crawler scripts in this repository:

  * src/lab_1/crawl_news.py  — function `crawl_articles` (retrying variant), with
    helper `get_article_body`;
  * src/lab_1/crawl.py       — function `crawl_news`, with helper
    `crawl_one_news_page`.

External collaborators (the HTTP layer `requests.get`, and the trafilatura
fetch/extract pipeline) are modelled as an oracle: a function giving, for each
page URL and retry-attempt index, the outcome of that HTTP attempt, and for
each article URL the outcome of the extraction pipeline.  Everything the
scripts themselves do — retry loops, pagination, the `collection` / `url`
checks, the `contentHref` regex scan, URL construction via f-strings and
`strftime`, accumulation of records, the `crawled_urls` set — is translated
directly from the Python source.  `multiprocessing.Pool.imap` /
`imap_unordered` over a URL batch is sequentialised in input order; the
properties proved below (which records survive, whether a batch aborts) do not
depend on completion order.  `tqdm` progress reporting and log output are
omitted: they do not affect control flow or data.
-/

/- ArticleRecord: the structured content a successful extraction yields.
The spec's data model requires at least `title` and `text` string fields;
crawl.py reads exactly these two keys from the extracted dict. -/
structure ArticleRecord where
  title : String
  text : String
deriving DecidableEq, Repr

/- Python exception kinds that can propagate in these scripts. -/
inductive PyExn where
  | typeError
  | valueError
  | keyError
  | nameError
  | indexError
  | requestError
  | otherError
deriving DecidableEq, Repr

/- Outcome of the external fetch+extract pipeline for one article URL:
the extraction produced a full record, produced no content (trafilatura
returned None, also the case when its internal download fails and it
returns None), raised some exception, or a KeyboardInterrupt arrived. -/
inductive ArticleOutcome where
  | content (r : ArticleRecord)
  | noContent
  | raises (e : PyExn)
  | interrupt
deriving DecidableEq, Repr

/- What one worker-level call returns to the pool loop. -/
inductive ExtractResult where
  | record (r : ArticleRecord)
  | skipped
  | exited
  | raised (e : PyExn)
  | interrupted
deriving DecidableEq, Repr

/- crawl_news.py, get_article_body: the whole body is inside
`try ... except KeyboardInterrupt: exit() except Exception: return None`;
a None extraction result is logged and returns None. -/
def get_article_body : ArticleOutcome → ExtractResult
  | .content r => .record r
  | .noContent => .skipped
  | .raises _ => .skipped
  | .interrupt => .exited

/- crawl.py, crawl_one_news_page: only `except TypeError` is handled (it is
what `json.loads(None)` raises when `extract` returns None); any other
exception — and KeyboardInterrupt — propagates to the caller. -/
def crawl_one_news_page : ArticleOutcome → ExtractResult
  | .content r => .record r
  | .noContent => .skipped
  | .raises .typeError => .skipped
  | .raises e => .raised e
  | .interrupt => .interrupted

/- Projection used to state which outcomes contribute records. -/
def recOf : ArticleOutcome → Option ArticleRecord
  | .content r => some r
  | _ => none

/- Result of iterating a pool over one URL batch. -/
inductive BatchOut where
  | ok (recs : List ArticleRecord)
  | exit
  | raise (e : PyExn)
  | interrupt
deriving DecidableEq, Repr

/- The `for ... in pool.imap(...)` loop over a batch: successful records are
kept (appended by the caller), None results are skipped, a worker exit or a
propagating exception ends the whole batch. -/
def runBatch (f : ArticleOutcome → ExtractResult) : List ArticleOutcome → BatchOut
  | [] => .ok []
  | o :: rest =>
    match f o with
    | .record r =>
      match runBatch f rest with
      | .ok rs => .ok (r :: rs)
      | other => other
    | .skipped => runBatch f rest
    | .exited => .exit
    | .raised e => .raise e
    | .interrupted => .interrupt

/- Outcome of one `requests.get` attempt, as seen by the script: a parsed
JSON page, a raised network exception, or a KeyboardInterrupt. -/
inductive CollectionField where
  | absent
  | null
  | items (blobs : List String)
deriving DecidableEq, Repr

/- A search-API page response: the `url` field (next page, "" = terminal)
and the `collection` field, which may be absent from the JSON object, null,
or a list of blobs each carrying a `script` string. -/
structure PageResponse where
  url : String
  collection : CollectionField
deriving DecidableEq, Repr

inductive FetchAttempt where
  | ok (r : PageResponse)
  | fail
  | interrupt
deriving DecidableEq, Repr

inductive RetryOutcome where
  | got (r : PageResponse) (sleeps : Nat)
  | exhausted (sleeps : Nat)
  | interrupted (sleeps : Nat)
deriving DecidableEq, Repr

/- crawl_news.py lines 81-95: `num_trials = 0; while num_trials <
max_trials: try: response = requests.get(...); break except
KeyboardInterrupt: exit() except Exception: sleep(sleep_time); num_trials +=
1`.  Each failed attempt sleeps once before the counter is bumped, so a full
exhaustion performs `max_trials` attempts and `max_trials` sleeps.  The
`attempt` argument gives the outcome of the i-th attempt. -/
def retryAux (attempt : Nat → FetchAttempt) : Nat → Nat → Nat → RetryOutcome
  | 0, _, sleeps => .exhausted sleeps
  | n + 1, idx, sleeps =>
    match attempt idx with
    | .ok r => .got r sleeps
    | .interrupt => .interrupted sleeps
    | .fail => retryAux attempt n (idx + 1) (sleeps + 1)

def retryFetch (attempt : Nat → FetchAttempt) (maxTrials : Nat) : RetryOutcome :=
  retryAux attempt maxTrials 0 0

/- The regex scan `re.findall(r"\x22contentHref\x22:\x22(.*?)\x22", script)`:
non-overlapping left-to-right matches of the literal pattern, each capturing
the shortest run of non-newline characters up to the next double quote;
scanning resumes after the closing quote of a completed match. -/
def matchTail : List Char → List Char → Option (List Char)
  | [], s => some s
  | _, [] => none
  | p :: ps, c :: cs => if p = c then matchTail ps cs else none

def captureTo : List Char → Option (List Char × List Char)
  | [] => none
  | c :: rest =>
    if c = '"' then some ([], rest)
    else if c = '\n' then none
    else
      match captureTo rest with
      | some (cap, r2) => some (c :: cap, r2)
      | none => none

def findAllAux (pat : List Char) : Nat → List Char → List String
  | 0, _ => []
  | _ + 1, [] => []
  | fuel + 1, c :: t =>
    match matchTail pat (c :: t) with
    | some rest =>
      match captureTo rest with
      | some (cap, rest2) => String.mk cap :: findAllAux pat fuel rest2
      | none => findAllAux pat fuel t
    | none => findAllAux pat fuel t

def contentHrefPat : List Char := "\"contentHref\":\"".data

def findAllContentHref (script : String) : List String :=
  findAllAux contentHrefPat (script.length + 1) script.data

/- Substring test used to state facts about constructed URLs. -/
def hasSubAux (needle : List Char) : Nat → List Char → Bool
  | 0, _ => false
  | fuel + 1, s =>
    match matchTail needle s with
    | some _ => true
    | none =>
      match s with
      | [] => false
      | _ :: t => hasSubAux needle fuel t

def strContains (hay needle : String) : Bool :=
  hasSubAux needle.data (hay.length + 1) hay.data

/- Calendar dates, as produced by pandas.date_range(start, end, freq="D"). -/
structure Date where
  year : Nat
  month : Nat
  day : Nat
deriving DecidableEq, Repr

def isLeap (y : Nat) : Bool := (y % 4 = 0 && y % 100 != 0) || y % 400 = 0

def daysInMonth (y m : Nat) : Nat :=
  if m = 2 then (if isLeap y then 29 else 28)
  else if m = 4 || m = 6 || m = 9 || m = 11 then 30
  else 31

def Date.succ (d : Date) : Date :=
  if d.day < daysInMonth d.year d.month then ⟨d.year, d.month, d.day + 1⟩
  else if d.month < 12 then ⟨d.year, d.month + 1, 1⟩
  else ⟨d.year + 1, 1, 1⟩

/- Serial day number of a proleptic-Gregorian date (days since 1970-01-01),
the standard civil-calendar day-count computation; pandas timestamps order
and subtract like this number. -/
def Date.toRata (d : Date) : Int :=
  let y : Int := if d.month ≤ 2 then (d.year : Int) - 1 else (d.year : Int)
  let era : Int := (if 0 ≤ y then y else y - 399) / 400
  let yoe : Int := y - era * 400
  let mp : Int := ((d.month : Int) + 9) % 12
  let doy : Int := (153 * mp + 2) / 5 + (d.day : Int) - 1
  let doe : Int := yoe * 365 + yoe / 4 - yoe / 100 + doy
  era * 146097 + doe - 719468

def dateRangeAux : Nat → Date → List Date
  | 0, _ => []
  | n + 1, d => d :: dateRangeAux n d.succ

/- pandas.date_range(start, end, freq="D"): the inclusive run of calendar
days from start to end; when start is after end the count underflows to
zero and the index is empty (no error is raised). -/
def date_range (s e : Date) : List Date :=
  dateRangeAux (Date.toRata e - Date.toRata s + 1).toNat s

/- Python strftime digit rendering.  pandas timestamps carry years in
1677..2262, where %Y is exactly the four decimal digits of the year; %y is
the last two digits; %m and %d are zero-padded to two digits. -/
def digitChar (n : Nat) : Char := Char.ofNat (48 + n % 10)

def pad2 (n : Nat) : String := String.mk [digitChar (n / 10), digitChar n]

def pad4 (n : Nat) : String :=
  String.mk [digitChar (n / 1000), digitChar (n / 100), digitChar (n / 10), digitChar n]

/- crawl_news.py line 70: date.strftime("%Y%m%d"). -/
def strftimeYmd (d : Date) : String := pad4 d.year ++ pad2 d.month ++ pad2 d.day

/- crawl.py line 38: date.strftime("%y%m%d") — two-digit year. -/
def strftime_yy_md (d : Date) : String := pad2 (d.year % 100) ++ pad2 d.month ++ pad2 d.day

/- urllib.parse.quote(s): UTF-8 encode, then percent-encode (uppercase hex)
every byte that is not an ASCII letter, digit, one of `_.-~`, or the
default-safe `/`. -/
def utf8Bytes (c : Char) : List Nat :=
  let n := c.toNat
  if n < 128 then [n]
  else if n < 2048 then [192 + n / 64, 128 + n % 64]
  else if n < 65536 then [224 + n / 4096, 128 + n / 64 % 64, 128 + n % 64]
  else [240 + n / 262144, 128 + n / 4096 % 64, 128 + n / 64 % 64, 128 + n % 64]

def quoteSafeByte (b : Nat) : Bool :=
  (65 ≤ b && b ≤ 90) || (97 ≤ b && b ≤ 122) || (48 ≤ b && b ≤ 57) ||
  b == 45 || b == 46 || b == 95 || b == 126 || b == 47

def hexUpper (n : Nat) : Char := if n < 10 then Char.ofNat (48 + n) else Char.ofNat (55 + n)

def pctEncodeByte (b : Nat) : List Char := ['%', hexUpper (b / 16), hexUpper (b % 16)]

def pyQuote (s : String) : String :=
  String.mk ((s.data.flatMap utf8Bytes).flatMap
    (fun b => if quoteSafeByte b then [Char.ofNat b] else pctEncodeByte b))

/- crawl_news.py lines 72-77: the seed page URL f-string. -/
def seedUrlArticles (encodedQuery dateStr : String) : String :=
  "https://s.search.naver.com/p/newssearch/3/api/tab/more?query=" ++ encodedQuery ++
  "&sort=0&nso=so%3Ar%2Cp%3Afrom" ++ dateStr ++ "to" ++ dateStr ++
  "%2Ca%3Aall&ssc=tab.news.all&start=1"

/- crawl.py line 40: the seed page URL f-string of the other variant. -/
def seedUrlNews (encodedQuery dateStr : String) : String :=
  "https://s.search.naver.com/p/newssearch/3/api/tab/more?nso=so%3Ar%2Cp%3Afrom" ++
  dateStr ++ "to" ++ dateStr ++ "%2Ca%3Aall&query=" ++ encodedQuery ++
  "&sort=0&spq=0&ssc=tab.news.all&start=1"

/- The environment: outcome of the i-th requests.get attempt for a page
URL, and outcome of the fetch+extract pipeline for an article URL. -/
structure Oracle where
  fetch : String → Nat → FetchAttempt
  extract : String → ArticleOutcome

/- Run-scoped mutable locals of crawl_articles: the accumulated article
list, the crawled_urls set (kept in first-insertion order), and the current
value of the Python local `response` (absent until the first successful
requests.get; it survives across pages and date windows). -/
structure CrawlState where
  articles : List ArticleRecord
  crawledUrls : List String
  lastResponse : Option PageResponse
deriving DecidableEq, Repr

/- Python set.update on the seen-URL set. -/
def updateSet (s : List String) (new : List String) : List String :=
  new.foldl (fun acc u => if u ∈ acc then acc else acc ++ [u]) s

/- What one iteration of a `while True` pagination loop does. -/
inductive StepRes (σ : Type) where
  | next (st : σ) (url : String)
  | stop (st : σ)
  | crash (e : PyExn)
  | exit
  | interrupt

/- crawl_news.py lines 97-119, the body after a response is in hand:
`request_result["collection"]` (KeyError when the key is absent) compared
with None; then `next_url = request_result["url"]` and the empty check —
BEFORE the script scan, so a terminal page's own URLs are never extracted;
then `collection[0]["script"]`, the regex scan, the worker pool, the append
of each non-None body, and `crawled_urls.update(article_urls)` (this set is
written here but read nowhere in the script). -/
def afterFetchArticles (O : Oracle) (st : CrawlState) (resp : PageResponse) :
    StepRes CrawlState :=
  match resp.collection with
  | .absent => .crash .keyError
  | .null => .stop st
  | .items blobs =>
    if resp.url = "" then .stop st
    else
      match blobs with
      | [] => .crash .indexError
      | script :: _ =>
        let urls := findAllContentHref script
        match runBatch get_article_body (urls.map O.extract) with
        | .ok recs =>
          .next { st with
                    articles := st.articles ++ recs,
                    crawledUrls := updateSet st.crawledUrls urls } resp.url
        | .exit => .exit
        | .raise e => .crash e
        | .interrupt => .interrupt

/- One page iteration of crawl_articles: the bounded retry loop around
requests.get, then the response processing.  When every attempt fails the
loop falls through with the local `response` unchanged: a NameError if no
page was ever fetched in this run, otherwise the previous (stale) response
is silently processed again. -/
def crawlArticlesPage (O : Oracle) (maxTrials : Nat) (st : CrawlState) (url : String) :
    StepRes CrawlState :=
  match retryFetch (O.fetch url) maxTrials with
  | .interrupted _ => .exit
  | .got resp _ => afterFetchArticles O { st with lastResponse := some resp } resp
  | .exhausted _ =>
    match st.lastResponse with
    | none => .crash .nameError
    | some stale => afterFetchArticles O st stale

inductive WindowOut (σ : Type) where
  | done (st : σ)
  | crash (e : PyExn)
  | exit
  | interrupt
  | fuelOut

/- The `while True` pagination loop over one date window, fuelled. -/
def windowLoop {σ : Type} (step : σ → String → StepRes σ) :
    Nat → σ → String → WindowOut σ
  | 0, _, _ => .fuelOut
  | fuel + 1, st, url =>
    match step st url with
    | .next st2 u2 => windowLoop step fuel st2 u2
    | .stop st2 => .done st2
    | .crash e => .crash e
    | .exit => .exit
    | .interrupt => .interrupt

/- Final observable outcome of a run: the returned article list, an
uncaught exception, a call to exit() (KeyboardInterrupt handler — the
function never returns and nothing is written), an uncaught
KeyboardInterrupt, or fuel exhaustion of the model. -/
inductive RunResult where
  | finished (articles : List ArticleRecord)
  | crashed (e : PyExn)
  | exited
  | interrupted
  | fuelOut
deriving DecidableEq, Repr

/- crawl_news.py lines 62-123: the outer `for date in dates` loop. -/
def crawlArticlesRun (O : Oracle) (maxTrials fuel : Nat) (encq : String) :
    List Date → CrawlState → RunResult
  | [], st => .finished st.articles
  | d :: ds, st =>
    match windowLoop (crawlArticlesPage O maxTrials) fuel st
        (seedUrlArticles encq (strftimeYmd d)) with
    | .done st2 => crawlArticlesRun O maxTrials fuel encq ds st2
    | .crash e => .crashed e
    | .exit => .exited
    | .interrupt => .interrupted
    | .fuelOut => .fuelOut

/- crawl_news.py, crawl_articles(args): date range, query encoding, empty
initial state (crawled_urls = set(), crawled_articles = []). -/
def crawl_articles (O : Oracle) (maxTrials fuel : Nat) (query : String)
    (startDate endDate : Date) : RunResult :=
  crawlArticlesRun O maxTrials fuel (pyQuote query) (date_range startDate endDate)
    ⟨[], [], none⟩

/- crawl.py lines 42-67, one page iteration of crawl_news: a single
requests.get (no retry — a network exception propagates), the combined
`"collection" not in response_data or ... is None` check, the script scan,
the pool over crawl_one_news_page appending title/text records, and only
then the empty-next-url check. -/
def crawlNewsPage (O : Oracle) (arts : List ArticleRecord) (url : String) :
    StepRes (List ArticleRecord) :=
  match O.fetch url 0 with
  | .fail => .crash .requestError
  | .interrupt => .interrupt
  | .ok resp =>
    match resp.collection with
    | .absent => .stop arts
    | .null => .stop arts
    | .items blobs =>
      match blobs with
      | [] => .crash .indexError
      | script :: _ =>
        match runBatch crawl_one_news_page ((findAllContentHref script).map O.extract) with
        | .ok recs => if resp.url = "" then .stop (arts ++ recs) else .next (arts ++ recs) resp.url
        | .raise e => .crash e
        | .interrupt => .interrupt
        | .exit => .exit

/- crawl.py lines 36-69: the outer date loop of crawl_news. -/
def crawlNewsRun (O : Oracle) (fuel : Nat) (encq : String) :
    List Date → List ArticleRecord → RunResult
  | [], arts => .finished arts
  | d :: ds, arts =>
    match windowLoop (crawlNewsPage O) fuel arts
        (seedUrlNews encq (strftime_yy_md d)) with
    | .done a2 => crawlNewsRun O fuel encq ds a2
    | .crash e => .crashed e
    | .exit => .exited
    | .interrupt => .interrupted
    | .fuelOut => .fuelOut

/- crawl.py, crawl_news(args). -/
def crawl_news (O : Oracle) (fuel : Nat) (query : String)
    (startDate endDate : Date) : RunResult :=
  crawlNewsRun O fuel (pyQuote query) (date_range startDate endDate) []

/- Concrete environments used by the individual claim checks. -/

/- A one-day window with three pages; the article at dup.example appears on
page 1 and again on page 2. -/
def c1Script1 : String :=
  "xx\"contentHref\":\"https://a.example/1\"yy\"contentHref\":\"https://dup.example/9\"zz"

def c1Script2 : String :=
  "xx\"contentHref\":\"https://dup.example/9\"yy\"contentHref\":\"https://b.example/2\"zz"

def c1Oracle : Oracle :=
  ⟨fun u _ =>
    if u = seedUrlArticles (pyQuote "test") "20251001" then
      FetchAttempt.ok ⟨"https://page2", CollectionField.items [c1Script1]⟩
    else if u = "https://page2" then
      FetchAttempt.ok ⟨"https://page3", CollectionField.items [c1Script2]⟩
    else if u = "https://page3" then
      FetchAttempt.ok ⟨"", CollectionField.items ["tail"]⟩
    else FetchAttempt.fail,
   fun u => ArticleOutcome.content ⟨u, "body"⟩⟩

/- A single page whose collection holds two article URLs and whose url
field is already the empty string. -/
def c2Script : String :=
  "xx\"contentHref\":\"https://a.example/x\"yy\"contentHref\":\"https://b.example/y\"zz"

def c2Oracle : Oracle :=
  ⟨fun u _ =>
    if u = seedUrlArticles (pyQuote "test") "20251002" then
      FetchAttempt.ok ⟨"", CollectionField.items [c2Script]⟩
    else FetchAttempt.fail,
   fun u => ArticleOutcome.content ⟨u, "body"⟩⟩

def c2wScript : String := "aa\"contentHref\":\"https://a.example/w\"bb"

def c2wOracle : Oracle :=
  ⟨fun u _ =>
    if u = "https://u.example/page" then
      FetchAttempt.ok ⟨"", CollectionField.items [c2wScript]⟩
    else FetchAttempt.fail,
   fun u => ArticleOutcome.content ⟨u, "body"⟩⟩

def c2wState : CrawlState := ⟨[], [], none⟩

/- Every requests.get attempt raises a network exception. -/
def c3Oracle : Oracle := ⟨fun _ _ => FetchAttempt.fail, fun _ => ArticleOutcome.noContent⟩

def c3Resp : PageResponse := ⟨"https://next.example", CollectionField.null⟩

/- Two-day range: every fetch of day 1's pages fails, day 2 is reachable
and carries one article. -/
def c4Script : String := "xx\"contentHref\":\"https://c4.example/a\"yy"

def c4Oracle : Oracle :=
  ⟨fun u _ =>
    if u = seedUrlArticles (pyQuote "q") "20251005" then
      FetchAttempt.ok ⟨"https://c4p2", CollectionField.items [c4Script]⟩
    else if u = "https://c4p2" then
      FetchAttempt.ok ⟨"", CollectionField.null⟩
    else FetchAttempt.fail,
   fun u => ArticleOutcome.content ⟨u, "body"⟩⟩

/- Every page response lacks the collection key entirely. -/
def c5Oracle : Oracle :=
  ⟨fun _ _ => FetchAttempt.ok ⟨"https://n.example", CollectionField.absent⟩,
   fun _ => ArticleOutcome.noContent⟩

def c5wOracle : Oracle :=
  ⟨fun _ _ => FetchAttempt.ok ⟨"https://n.example", CollectionField.null⟩,
   fun _ => ArticleOutcome.noContent⟩

/- Page 1 succeeds and yields one record; the fetch of page 2 is hit by a
KeyboardInterrupt on its first attempt. -/
def c6Script : String := "xx\"contentHref\":\"https://c6.example/a\"yy"

def c6Oracle : Oracle :=
  ⟨fun u _ =>
    if u = seedUrlArticles (pyQuote "q") "20251007" then
      FetchAttempt.ok ⟨"https://c6p2", CollectionField.items [c6Script]⟩
    else if u = "https://c6p2" then FetchAttempt.interrupt
    else FetchAttempt.fail,
   fun u => ArticleOutcome.content ⟨u, "body"⟩⟩

/- Control: identical but page 2 answers normally with a null collection. -/
def c6OracleB : Oracle :=
  ⟨fun u _ =>
    if u = seedUrlArticles (pyQuote "q") "20251007" then
      FetchAttempt.ok ⟨"https://c6p2", CollectionField.items [c6Script]⟩
    else if u = "https://c6p2" then
      FetchAttempt.ok ⟨"", CollectionField.null⟩
    else FetchAttempt.fail,
   fun u => ArticleOutcome.content ⟨u, "body"⟩⟩

def c6wOracle : Oracle :=
  ⟨fun u _ =>
    if u = seedUrlArticles (pyQuote "w") "20251009" then FetchAttempt.interrupt
    else FetchAttempt.fail,
   fun _ => ArticleOutcome.noContent⟩

/- A page of the crawl.py variant whose batch holds a poisoned URL: its
extraction raises a ValueError (for instance json.loads on a malformed
extraction result), which crawl_one_news_page does not catch. -/
def c8Script : String :=
  "xx\"contentHref\":\"https://ok1.example\"yy\"contentHref\":\"https://bad.example\"zz\"contentHref\":\"https://ok2.example\"ww"

def c8Oracle : Oracle :=
  ⟨fun u _ =>
    if u = seedUrlNews (pyQuote "q") "251008" then
      FetchAttempt.ok ⟨"", CollectionField.items [c8Script]⟩
    else FetchAttempt.fail,
   fun u =>
    if u = "https://bad.example" then ArticleOutcome.raises PyExn.valueError
    else ArticleOutcome.content ⟨u, "body"⟩⟩

def c10wOracle : Oracle := ⟨fun _ _ => FetchAttempt.fail, fun _ => ArticleOutcome.noContent⟩

/-- Claim C1. The claim states that Deduplicator.admit makes the crawl fetch
and append each distinct article URL at most once per run.  The code violates
this: crawl_articles only ever writes to its crawled_urls set
(`crawled_urls.update(article_urls)`) and never tests membership in it, so a
URL appearing on two pages is extracted twice and its record appended twice.
Evaluated here at the failing input: a one-day run whose page 1 and page 2
both list https://dup.example/9 — the returned result holds its record
twice. -/
theorem c1_duplicate_not_suppressed :
    crawl_articles c1Oracle 3 10 "test" ⟨2025, 10, 1⟩ ⟨2025, 10, 1⟩ =
      RunResult.finished
        [⟨"https://a.example/1", "body"⟩, ⟨"https://dup.example/9", "body"⟩,
         ⟨"https://dup.example/9", "body"⟩, ⟨"https://b.example/2", "body"⟩] ∧
    List.count (⟨"https://dup.example/9", "body"⟩ : ArticleRecord)
      [⟨"https://a.example/1", "body"⟩, ⟨"https://dup.example/9", "body"⟩,
       ⟨"https://dup.example/9", "body"⟩, ⟨"https://b.example/2", "body"⟩] = 2 :=
  ⟨by decide, by decide⟩

/-- Claim C2, counterexample. The claim states that a page whose collection
is present and whose url field is empty halts pagination only AFTER that
page's article URLs have been extracted and processed.  In crawl_articles
the `next_url == ""` check precedes the script scan, so such a page's URLs
are discarded: here the single page carries two contentHref URLs, yet the
run finishes with zero records. -/
theorem c2_terminal_page_urls_discarded :
    findAllContentHref c2Script = ["https://a.example/x", "https://b.example/y"] ∧
    crawl_articles c2Oracle 3 5 "test" ⟨2025, 10, 2⟩ ⟨2025, 10, 2⟩ =
      RunResult.finished [] :=
  ⟨by decide, by decide⟩

/-- Claim C2, amended. In crawl_articles (crawl_news.py) a page response with
a present, non-null collection and an empty url field is a terminal state
reached BEFORE extraction: pagination stops with the state unchanged and the
page's article URLs are discarded.  In the crawl_news variant (crawl.py) the
empty-url check follows the processing of the page, so there the page's URLs
are extracted and their records appended before the halt, as the claim
says. -/
theorem c2_amended_terminal_page_behavior
    (O : Oracle) (st : CrawlState) (arts recs : List ArticleRecord)
    (url script : String) (rest : List String) (resp : PageResponse)
    (hc : resp.collection = CollectionField.items (script :: rest))
    (hu : resp.url = "")
    (hf : O.fetch url 0 = FetchAttempt.ok resp)
    (hb : runBatch crawl_one_news_page ((findAllContentHref script).map O.extract) =
      BatchOut.ok recs) :
    afterFetchArticles O st resp = StepRes.stop st ∧
    crawlNewsPage O arts url = StepRes.stop (arts ++ recs) := by
  obtain ⟨u, c⟩ := resp
  simp only at hc hu
  subst hc hu
  constructor
  · simp [afterFetchArticles]
  · simp [crawlNewsPage, hf, hb]

/-- Claim C2, witness for the amended statement at a concrete page: one
contentHref URL, empty next url; crawl_articles discards it, crawl.py
appends its record and stops. -/
theorem c2_amended_witness :
    afterFetchArticles c2wOracle c2wState ⟨"", CollectionField.items [c2wScript]⟩ =
      StepRes.stop c2wState ∧
    crawlNewsPage c2wOracle [] "https://u.example/page" =
      StepRes.stop ([] ++ [⟨"https://a.example/w", "body"⟩]) :=
  c2_amended_terminal_page_behavior c2wOracle c2wState []
    [⟨"https://a.example/w", "body"⟩] "https://u.example/page" c2wScript []
    ⟨"", CollectionField.items [c2wScript]⟩ rfl rfl (by decide) (by decide)

/-- Claim C3. The claim (and the spec's RetryingFetcher contract) state that
after max_trials failed attempts the fetcher returns FetchFailure to the
caller rather than crashing or using a stale response.  The retry loop in
crawl_articles indeed makes at most max_trials attempts, sleeping a fixed
delay after each failure, and returns the response of a successful attempt;
but on full exhaustion it falls through to `response.json()` with the local
`response` never assigned: on the first page of a run this is a NameError
that aborts the whole run (later it silently reuses the previous page's
response).  Evaluated at the failing input: every attempt fails, max_trials
= 3 — the retry loop ends exhausted after 3 attempts and 3 sleeps, and the
run crashes with NameError instead of reporting a fetch failure. -/
theorem c3_retry_exhaustion_crashes :
    retryFetch (fun _ => FetchAttempt.fail) 3 = RetryOutcome.exhausted 3 ∧
    retryFetch (fun i => if i < 2 then FetchAttempt.fail else FetchAttempt.ok c3Resp) 3 =
      RetryOutcome.got c3Resp 2 ∧
    crawl_articles c3Oracle 3 5 "q" ⟨2025, 10, 3⟩ ⟨2025, 10, 3⟩ =
      RunResult.crashed PyExn.nameError :=
  ⟨by decide, by decide, by decide⟩

/-- Claim C4. The claim states that a search page still unreachable after
max_trials attempts terminates only the current date window and the run
proceeds to the next window.  In the code, retry exhaustion falls through to
`response.json()` on the unbound local `response`, so a two-day run whose
first day's page never answers crashes with NameError before day 2 is ever
visited — even though, run alone, day 2 yields its article. -/
theorem c4_window_failure_aborts_run :
    crawl_articles c4Oracle 3 5 "q" ⟨2025, 10, 4⟩ ⟨2025, 10, 5⟩ =
      RunResult.crashed PyExn.nameError ∧
    crawl_articles c4Oracle 3 5 "q" ⟨2025, 10, 5⟩ ⟨2025, 10, 5⟩ =
      RunResult.finished [⟨"https://c4.example/a", "body"⟩] :=
  ⟨by decide, by decide⟩

/-- Claim C5, counterexample. The claim states that a response whose
collection field is absent OR null halts the window normally in either
shape.  crawl_articles evaluates `request_result["collection"]`, a keyed
access: when the key is absent this raises KeyError and the run crashes
(crawl.py, which tests `"collection" not in response_data` first, stops
cleanly on the same input). -/
theorem c5_absent_collection_crashes :
    crawl_articles c5Oracle 3 5 "q" ⟨2025, 10, 6⟩ ⟨2025, 10, 6⟩ =
      RunResult.crashed PyExn.keyError ∧
    crawl_news c5Oracle 5 "q" ⟨2025, 10, 6⟩ ⟨2025, 10, 6⟩ =
      RunResult.finished [] :=
  ⟨by decide, by decide⟩

/-- Claim C5, amended. A present-but-null collection halts the window
normally, with the state unchanged and no error, in both variants; an
absent collection key also halts crawl.py normally, but in crawl_articles it
raises KeyError. -/
theorem c5_amended_collection_handling
    (O : Oracle) (st : CrawlState) (arts : List ArticleRecord)
    (url : String) (resp : PageResponse)
    (hf : O.fetch url 0 = FetchAttempt.ok resp) :
    (resp.collection = CollectionField.null →
      afterFetchArticles O st resp = StepRes.stop st ∧
      crawlNewsPage O arts url = StepRes.stop arts) ∧
    (resp.collection = CollectionField.absent →
      afterFetchArticles O st resp = StepRes.crash PyExn.keyError ∧
      crawlNewsPage O arts url = StepRes.stop arts) := by
  obtain ⟨u, c⟩ := resp
  constructor
  · intro hc
    simp only at hc
    subst hc
    exact ⟨by simp [afterFetchArticles], by simp [crawlNewsPage, hf]⟩
  · intro hc
    simp only at hc
    subst hc
    exact ⟨by simp [afterFetchArticles], by simp [crawlNewsPage, hf]⟩

/-- Claim C5, witness for the amended statement: the null shape stops both
variants on a concrete response. -/
theorem c5_amended_witness :
    afterFetchArticles c5wOracle ⟨[], [], none⟩ ⟨"https://n.example", CollectionField.null⟩ =
      StepRes.stop ⟨[], [], none⟩ ∧
    crawlNewsPage c5wOracle [] "https://any.example" = StepRes.stop [] :=
  (c5_amended_collection_handling c5wOracle ⟨[], [], none⟩ [] "https://any.example"
    ⟨"https://n.example", CollectionField.null⟩ rfl).1 rfl

/-- Claim C6, counterexample. The claim states that on a cancellation signal
the run returns (and reports) the CrawlResult accumulated so far.  The code's
KeyboardInterrupt handlers call exit(): the process terminates, crawl_articles
never returns, and nothing is written.  Here page 1 has already contributed a
record (the control oracle, identical except that page 2 answers normally,
finishes with exactly that record), yet when page 2's fetch is interrupted
the run ends in exit() with the accumulated record discarded. -/
theorem c6_interrupt_discards_results :
    crawl_articles c6Oracle 3 5 "q" ⟨2025, 10, 7⟩ ⟨2025, 10, 7⟩ = RunResult.exited ∧
    crawl_articles c6OracleB 3 5 "q" ⟨2025, 10, 7⟩ ⟨2025, 10, 7⟩ =
      RunResult.finished [⟨"https://c6.example/a", "body"⟩] :=
  ⟨by decide, by decide⟩

/-- Claim C6, amended. A KeyboardInterrupt raised during a page-fetch
attempt does short-circuit the remaining retries immediately, but the
handler calls exit(): the page step exits, and the whole run ends in the
exited state, which carries no article list — the accumulated CrawlResult is
discarded, not returned. -/
theorem c6_amended_interrupt_exits
    (O : Oracle) (mt fuel k : Nat) (st : CrawlState)
    (encq : String) (d : Date) (ds : List Date)
    (h : retryFetch (O.fetch (seedUrlArticles encq (strftimeYmd d))) mt =
      RetryOutcome.interrupted k) :
    crawlArticlesPage O mt st (seedUrlArticles encq (strftimeYmd d)) = StepRes.exit ∧
    crawlArticlesRun O mt (fuel + 1) encq (d :: ds) st = RunResult.exited := by
  have hp : crawlArticlesPage O mt st (seedUrlArticles encq (strftimeYmd d)) =
      StepRes.exit := by
    simp [crawlArticlesPage, h]
  exact ⟨hp, by simp [crawlArticlesRun, windowLoop, hp]⟩

/-- Claim C6, witness for the amended statement: a concrete interrupt on the
first attempt of a window's seed page ends the run as exited. -/
theorem c6_amended_witness :
    crawlArticlesPage c6wOracle 3 ⟨[], [], none⟩
      (seedUrlArticles (pyQuote "w") (strftimeYmd ⟨2025, 10, 9⟩)) = StepRes.exit ∧
    crawlArticlesRun c6wOracle 3 5 (pyQuote "w") [⟨2025, 10, 9⟩] ⟨[], [], none⟩ =
      RunResult.exited :=
  c6_amended_interrupt_exits c6wOracle 3 4 0 ⟨[], [], none⟩ (pyQuote "w")
    ⟨2025, 10, 9⟩ [] (by decide)

set_option maxRecDepth 8000 in
/-- Claim C7, counterexample. The claim states that for every date window
both date positions of the nso filter carry the date in four-digit-year
YYYYMMDD form.  crawl.py formats the window date with strftime("%y%m%d"):
for 2025-10-01 its seed URL carries from251001to251001 and contains no
four-digit 20251001 anywhere. -/
theorem c7_two_digit_year_in_crawl_py :
    strftime_yy_md ⟨2025, 10, 1⟩ = "251001" ∧
    strContains (seedUrlNews (pyQuote "test") (strftime_yy_md ⟨2025, 10, 1⟩))
      "from251001to251001" = true ∧
    strContains (seedUrlNews (pyQuote "test") (strftime_yy_md ⟨2025, 10, 1⟩))
      "20251001" = false :=
  ⟨by decide, by decide, by decide⟩

/-- Claim C7, amended. crawl_articles (crawl_news.py) builds its seed URL
exactly as the claim says: URL-encoded query, start=1 cursor, and an nso
filter whose two date positions carry strftime("%Y%m%d") — four year digits
then two-digit month and day.  The crawl.py variant builds the same kind of
URL but formats the date with strftime("%y%m%d"), a two-digit year, so its
filter reads fromYYMMDDtoYYMMDD. -/
theorem c7_amended_seed_url_format (q : String) (d : Date) :
    seedUrlArticles (pyQuote q) (strftimeYmd d) =
      "https://s.search.naver.com/p/newssearch/3/api/tab/more?query=" ++ pyQuote q ++
      "&sort=0&nso=so%3Ar%2Cp%3Afrom" ++ strftimeYmd d ++ "to" ++ strftimeYmd d ++
      "%2Ca%3Aall&ssc=tab.news.all&start=1" ∧
    strftimeYmd d = pad4 d.year ++ pad2 d.month ++ pad2 d.day ∧
    (pad4 d.year).length = 4 ∧
    seedUrlNews (pyQuote q) (strftime_yy_md d) =
      "https://s.search.naver.com/p/newssearch/3/api/tab/more?nso=so%3Ar%2Cp%3Afrom" ++
      strftime_yy_md d ++ "to" ++ strftime_yy_md d ++ "%2Ca%3Aall&query=" ++ pyQuote q ++
      "&sort=0&spq=0&ssc=tab.news.all&start=1" ∧
    strftime_yy_md d = pad2 (d.year % 100) ++ pad2 d.month ++ pad2 d.day ∧
    (pad2 (d.year % 100)).length = 2 :=
  ⟨rfl, rfl, rfl, rfl, rfl, rfl⟩

/-- Claim C8, counterexample. The claim states that ANY internal exception
raised during a URL's extraction yields no record and does not abort the
sibling extractions or the batch.  crawl.py's crawl_one_news_page catches
only TypeError: a ValueError raised for the middle URL of a three-URL batch
propagates, the batch ends with that exception (the third sibling's record
is lost), and the whole crawl_news run crashes. -/
theorem c8_uncaught_exception_aborts_batch :
    runBatch crawl_one_news_page
      [ArticleOutcome.content ⟨"https://ok1.example", "body"⟩,
       ArticleOutcome.raises PyExn.valueError,
       ArticleOutcome.content ⟨"https://ok2.example", "body"⟩] =
      BatchOut.raise PyExn.valueError ∧
    crawl_news c8Oracle 5 "q" ⟨2025, 10, 8⟩ ⟨2025, 10, 8⟩ =
      RunResult.crashed PyExn.valueError :=
  ⟨by decide, by decide⟩

/-- Claim C8, amended. In crawl_articles, extraction over a batch returns
exactly the successfully extracted full records: every per-URL failure — no
content found, a failed fetch (surfacing as no content), or any internal
exception — contributes nothing and aborts nothing (get_article_body catches
Exception).  In crawl.py, only TypeError is caught: an extraction raising
any other exception aborts its whole batch regardless of the siblings. -/
theorem c8_amended_extraction_failures
    (outs : List ArticleOutcome) (h : ArticleOutcome.interrupt ∉ outs) :
    runBatch get_article_body outs = BatchOut.ok (outs.filterMap recOf) ∧
    ∀ e, e ≠ PyExn.typeError → ∀ rest,
      runBatch crawl_one_news_page (ArticleOutcome.raises e :: rest) =
        BatchOut.raise e := by
  constructor
  · induction outs with
    | nil => rfl
    | cons o t ih =>
      have ht : ArticleOutcome.interrupt ∉ t := fun hm => h (List.mem_cons_of_mem _ hm)
      have ho : o ≠ ArticleOutcome.interrupt := fun he => h (he ▸ List.mem_cons_self _ _)
      cases o with
      | content r => simp [runBatch, get_article_body, ih ht, recOf]
      | noContent => simpa [runBatch, get_article_body, recOf] using ih ht
      | raises e => simpa [runBatch, get_article_body, recOf] using ih ht
      | interrupt => exact absurd rfl ho
  · intro e he rest
    cases e with
    | typeError => exact absurd rfl he
    | valueError => rfl
    | keyError => rfl
    | nameError => rfl
    | indexError => rfl
    | requestError => rfl
    | otherError => rfl

/-- Claim C8, witness for the amended statement on a concrete batch: one
success, one no-content, one internal error — exactly the one full record
survives in crawl_articles, and a ValueError aborts a crawl.py batch. -/
theorem c8_amended_witness :
    runBatch get_article_body
      [ArticleOutcome.content ⟨"t", "x"⟩, ArticleOutcome.noContent,
       ArticleOutcome.raises PyExn.otherError] =
      BatchOut.ok ([ArticleOutcome.content ⟨"t", "x"⟩, ArticleOutcome.noContent,
        ArticleOutcome.raises PyExn.otherError].filterMap recOf) ∧
    runBatch crawl_one_news_page
      [ArticleOutcome.raises PyExn.valueError, ArticleOutcome.content ⟨"t", "x"⟩] =
      BatchOut.raise PyExn.valueError :=
  ⟨(c8_amended_extraction_failures
      [ArticleOutcome.content ⟨"t", "x"⟩, ArticleOutcome.noContent,
       ArticleOutcome.raises PyExn.otherError] (by decide)).1,
   (c8_amended_extraction_failures [] (by decide)).2 PyExn.valueError (by decide)
     [ArticleOutcome.content ⟨"t", "x"⟩]⟩

/-- Claim C10. When start_date is strictly after end_date,
pandas.date_range yields the empty index, so in both variants the date loop
never runs: no page is ever fetched (the result does not depend on the
environment at all) and the run returns the empty article list without
error. -/
theorem c10_reversed_range_is_empty (s e : Date)
    (h : Date.toRata e < Date.toRata s) :
    date_range s e = [] ∧
    (∀ O maxTrials fuel q, crawl_articles O maxTrials fuel q s e =
      RunResult.finished []) ∧
    (∀ O fuel q, crawl_news O fuel q s e = RunResult.finished []) := by
  have hz : (Date.toRata e - Date.toRata s + 1).toNat = 0 := by omega
  have hr : date_range s e = [] := by
    simp [date_range, hz, dateRangeAux]
  exact ⟨hr,
    fun O maxTrials fuel q => by simp [crawl_articles, hr, crawlArticlesRun],
    fun O fuel q => by simp [crawl_news, hr, crawlNewsRun]⟩

/-- Claim C10, witness at the reversed pair of the script defaults
(2025-10-21 down to 2025-10-01). -/
theorem c10_witness :
    date_range ⟨2025, 10, 21⟩ ⟨2025, 10, 1⟩ = [] ∧
    crawl_articles c10wOracle 3 5 "test" ⟨2025, 10, 21⟩ ⟨2025, 10, 1⟩ =
      RunResult.finished [] ∧
    crawl_news c10wOracle 5 "test" ⟨2025, 10, 21⟩ ⟨2025, 10, 1⟩ =
      RunResult.finished [] :=
  have h := c10_reversed_range_is_empty ⟨2025, 10, 21⟩ ⟨2025, 10, 1⟩ (by decide)
  ⟨h.1, h.2.1 c10wOracle 3 5 "test", h.2.2 c10wOracle 5 "test"⟩
